import Mathlib

/-!
Verification development for the terminal-runner narrative adventure game
(src/main.py). The source is a set of mutually recursive scene functions
over a mutable `GameState`, reading stdin lines and drawing from a global
random source. We embed it shallowly:

* `GameState` mirrors the Python class (score, has_fire_armor).
* User input and random draws are modelled as an explicit list of events
  (`Ev`): stdin lines, 50% coin flips, and the two `random.choice` calls.
* All printed text (including prompts passed to `input`) is appended, in
  chronological order, to an output log; the cosmetic per-character typing
  delay and the `time.sleep` pauses have no functional content and are
  dropped.
* The mutually recursive scene functions become a single fueled
  interpreter `exec : Nat → Call → Env → Res`, one `Call` constructor per
  source function (plus one per `while True:` loop body). Each function
  call or loop iteration consumes one unit of fuel; running out of fuel
  (or out of events) yields `Res.stuck`. `sys.exit()` becomes
  `Res.exited 0`, propagating outward exactly as the `SystemExit`
  exception does in Python; a normal `return` becomes `Res.ok`.
-/

/-- Player state: `score` and `has_fire_armor` (class `GameState`,
src/main.py lines 10-15). Python integers are unbounded, so `score : Int`. -/
structure GameState where
  score : Int
  has_fire_armor : Bool
deriving DecidableEq, Repr

/-- The fresh state built by `GameState.__init__` (lines 13-15). -/
def GameState.init : GameState := ⟨10, false⟩

/-- `GameState.modify_score` (lines 17-26): adds `amount` to the score and
returns the new state together with the new score value. -/
def GameState.modify_score (gs : GameState) (amount : Int) : GameState × Int :=
  let s := gs.score + amount
  ({ gs with score := s }, s)

/-- `GameState.is_game_over` (lines 28-30): `score <= 0`. Pure. -/
def GameState.is_game_over (gs : GameState) : Bool :=
  gs.score ≤ 0

/-- One external event consumed by the program: a line read from stdin, or
one draw from the global random source. `coin b` is the outcome of a
`random.random() < 0.5` test; `pick2 first` is a `random.choice` over a
two-element list (`true` picks the first element); `pick3 i` is the
`random.choice` over the three-question trivia list. -/
inductive Ev where
  | line (s : String)
  | coin (b : Bool)
  | pick2 (first : Bool)
  | pick3 (i : Fin 3)
deriving DecidableEq, Repr

/-- Interpreter environment: the game state, the remaining events, and the
log of displayed text, in chronological order (oldest first). -/
structure Env where
  gs : GameState
  events : List Ev
  out : List String
deriving DecidableEq, Repr

/-- `type_text` (lines 55-65): the character-by-character pacing is
cosmetic; functionally it displays the whole line. -/
def type_text (text : String) (e : Env) : Env :=
  { e with out := e.out ++ [text] }

/-- `print_pause` (lines 45-52): `type_text` plus a cosmetic sleep. -/
def print_pause (text : String) (e : Env) : Env :=
  type_text text e

/-- `print_lines_with_pause` (lines 33-42): `type_text` each line, with a
cosmetic pause after each. -/
def print_lines_with_pause (lines : List String) (e : Env) : Env :=
  lines.foldl (fun acc l => type_text l acc) e

/-- A bare `print(...)` call. -/
def print_out (text : String) (e : Env) : Env :=
  { e with out := e.out ++ [text] }

/-- Model of Python `str.lower()` (character-wise lowering; the program
only ever compares ASCII tokens). Defined on the character list so that it
evaluates by kernel reduction. -/
def py_lower (s : String) : String := ⟨s.data.map Char.toLower⟩

/-- Model of Python `str.upper()`, likewise character-wise. -/
def py_upper (s : String) : String := ⟨s.data.map Char.toUpper⟩

/-- The default error text of `get_valid_input` (line 85):
an f-string joining the valid options with commas. -/
def default_error (valid_options : List String) : String :=
  "Invalid choice. Choose: " ++ String.intercalate ", " valid_options

/-- `get_valid_input` (lines 68-87): repeatedly display `prompt`, read a
line, lower-case it, and return it once it is one of `valid_options`;
otherwise print the error message (the Python `error_msg or default`
treats both `None` and the empty string as absent) and loop. The loop is
driven by the event list; if the next event is not an input line (stdin
exhausted in the model), the result is `none`. It never exits the process. -/
def get_valid_input (prompt : String) (valid_options : List String)
    (error_msg : Option String) :
    List Ev → List String → Option (String × List Ev × List String)
  | Ev.line s :: evs, out =>
    let user_input := py_lower s
    let out1 := out ++ [prompt]
    if user_input ∈ valid_options then
      some (user_input, evs, out1)
    else
      let error_text :=
        match error_msg with
        | some m => if m = "" then default_error valid_options else m
        | none => default_error valid_options
      get_valid_input prompt valid_options error_msg evs (out1 ++ [error_text])
  | _, _ => none

/-- One trivia entry (the dictionaries of lines 369-391). -/
structure Question where
  question : String
  options : String
  answer : String
deriving DecidableEq, Repr

/-- The trivia question pool (lines 369-391), in source order. -/
def questions : List Question :=
  [ ⟨"What does CPU stand for?",
     "A) Central Processing Unit  B) Computer Personal Unit  C) Central Peripheral Unit",
     "a"⟩,
    ⟨"Which of these is an OS?",
     "A) Python  B) Linux  C) HTML",
     "b"⟩,
    ⟨"What does RAM stand for?",
     "A) Random Access Memory  B) Readily Available Memory  C) Rapid Action Module",
     "a"⟩ ]

/-- The play-again prompt text (lines 100-103), depending on whether the
prompt follows a successful ending. -/
def play_again_prompt (is_ending : Bool) : String :=
  if is_ending then "Would you like to play again? (Y/N): "
  else "You lost, play again? (Y/N): "

/-- `show_path_choices` (lines 138-144). -/
def show_path_choices (e : Env) : Env :=
  print_lines_with_pause
    [ "Ahead of you, there are two paths:",
      "1. A corridor with a red light labeled 'Firewall.'",
      "2. A pitch black tunnel labeled 'Core Access.'" ] e

/-- One constructor per source function, plus one per `while True:` loop
body (`fireLoop` for the loop at lines 229-254, `fanLoop` for the loop at
lines 268-294). `jumpSeq` carries the success callback, exactly as
`handle_jump_sequence` takes `success_callback`. -/
inductive Call where
  | intro
  | mainLoop
  | firewallPath
  | bridgeCrossing
  | firewallObstacle
  | fireLoop
  | fanObstacle
  | fanLoop
  | coreAccess
  | randomEvent
  | returnToCore
  | trivia
  | jumpSeq (onSuccess : Call)
  | playAgain (is_ending : Bool)
  | resetGame
deriving DecidableEq, Repr

/-- Result of running a scene function: it returned normally (`ok`), the
process terminated via `sys.exit()` with the given exit code (`exited`,
propagating like the underlying `SystemExit`), or the model ran out of
fuel or of events (`stuck`). -/
inductive Res where
  | ok (e : Env)
  | exited (code : Nat) (e : Env)
  | stuck
deriving DecidableEq, Repr

/-- Sequencing: continue with `k` after a normal return; `sys.exit`
propagates; `stuck` stays stuck. -/
def Res.andThen (r : Res) (k : Env → Res) : Res :=
  match r with
  | .ok e => k e
  | r => r

/-- Observation helper for stating theorems: the game state at the end of
a run (at the `sys.exit`, or at the normal return). -/
def Res.finalState : Res → Option GameState
  | .ok e => some e.gs
  | .exited _ e => some e.gs
  | .stuck => none

/-- Observation helper for stating theorems: the process exit code, when
the run ended in `sys.exit`. -/
def Res.exitCode : Res → Option Nat
  | .exited c _ => some c
  | _ => none

/-- Observation helper for stating theorems: the events still unconsumed
at the end of a run. -/
def Res.remainingEvents : Res → Option (List Ev)
  | .ok e => some e.events
  | .exited _ e => some e.events
  | .stuck => none

/-- The fueled interpreter for the narrative engine: a direct translation
of the mutually recursive scene functions of src/main.py. Each case is
annotated with the source function it embeds. -/
def exec : Nat → Call → Env → Res
  | 0, _, _ => .stuck
  | n + 1, c, e =>
    match c with
    -- intro (lines 124-135)
    | .intro =>
      .ok (print_lines_with_pause
        [ "You wake up in a strange, dark place with tangled wires.",
          "As you wander a bit, you begin to realize you're inside a...",
          "Computer system." ] e)
    -- main_game_loop (lines 416-433): while True: show choices; if game
    -- over, handle_play_again (and fall through); read a path choice.
    | .mainLoop =>
      let e1 := show_path_choices e
      let rest := fun (e2 : Env) =>
        match get_valid_input "Where do you go from here? The choice is yours: "
            ["1", "2"] none e2.events e2.out with
        | none => Res.stuck
        | some (choice, evs, out) =>
          let e3 : Env := ⟨e2.gs, evs, out⟩
          let branch :=
            if choice = "1" then exec n .firewallPath e3
            else if choice = "2" then exec n .coreAccess e3
            else Res.ok e3
          branch.andThen fun e4 => exec n .mainLoop e4
      if e1.gs.is_game_over then
        (exec n (.playAgain false) e1).andThen rest
      else rest e1
    -- enter_firewall_path (lines 165-189)
    | .firewallPath =>
      if e.gs.has_fire_armor then
        let e1 := print_lines_with_pause
          [ "You walk back into the corridor.",
            "You need to jump high this time; the bridge is broken." ] e
        exec n (.jumpSeq .firewallObstacle) e1
      else
        let e1 := print_lines_with_pause
          [ "You walk into the long, creepy corridor...",
            "You must cross a bridge with lava underneath." ] e
        match get_valid_input "It sounds risky. Will you do it? (Y/N): "
            ["y", "n"] none e1.events e1.out with
        | none => .stuck
        | some (c1, evs, out) =>
          let e2 : Env := ⟨e1.gs, evs, out⟩
          if c1 = "y" then exec n .bridgeCrossing e2
          else .ok (print_pause "You decided not to risk it and go back." e2)
    -- handle_bridge_crossing (lines 191-202)
    | .bridgeCrossing =>
      let e1 := print_lines_with_pause
        [ "You're halfway across the bridge, but something feels off...",
          "..",
          "..." ] e
      exec n (.jumpSeq .firewallObstacle) e1
    -- handle_jump_sequence (lines 147-162): raw input("> ").upper()
    | .jumpSeq k =>
      let e1 := type_text "Type \"JUMP\" to jump to the opposite side" e
      match e1.events with
      | Ev.line s :: evs =>
        let user_input := py_upper s
        let e2 : Env := ⟨e1.gs, evs, e1.out ++ ["> "]⟩
        if user_input = "JUMP" then
          exec n k (print_out "Phew, that was really close!" e2)
        else
          exec n (.playAgain false) (print_out "Looks like you made a typo." e2)
      | _ => .stuck
    -- handle_firewall_obstacle (lines 205-254), up to its inner loop
    | .firewallObstacle =>
      let e1 := print_pause "You make it across the bridge." e
      if e1.gs.has_fire_armor then
        let e2 := print_lines_with_pause
          [ "The huge wall of fire blocks your path again, but you're ready.",
            "You step forward into the fire..",
            "It was hot, but you survived!",
            "You've unlocked the 'Wall Of Fire' ending!" ] e1
        exec n (.playAgain true) (type_text "Thanks for playing!" e2)
      else
        let e2 := print_lines_with_pause
          [ "A huge wall of fire is blocking your path.",
            "The heat is overwhelming—you can't pass through.",
            "There has to be a way through, right?" ] e1
        exec n .fireLoop e2
    -- the while True loop of handle_firewall_obstacle (lines 229-254)
    | .fireLoop =>
      let e1 := print_out "Do you want to:" e
      let e2 := print_out "1. Risk walking through the fire" e1
      let e3 := print_out "2. Go back" e2
      match get_valid_input "> " ["1", "2"] none e3.events e3.out with
      | none => .stuck
      | some (choice, evs, out) =>
        let e4 : Env := ⟨e3.gs, evs, out⟩
        if choice = "1" then
          let e5 := print_lines_with_pause
            [ "You step into the fire..",
              "The heat is unbearable." ] e4
          match e5.events with
          | Ev.coin b :: evs2 =>
            let e6 : Env := ⟨e5.gs, evs2, e5.out⟩
            if b then
              let e7 := print_lines_with_pause
                [ "Lucky day! You emerge on the other side,",
                  "smoking but alive!",
                  "You've unlocked the 'Wall Of Fire' ending!" ] e6
              exec n (.playAgain true) (type_text "Thanks for playing!" e7)
            else
              exec n (.playAgain false)
                (print_pause "Within seconds, your body gives in." e6)
          | _ => .stuck
        else if choice = "2" then
          .ok (print_pause "You decided to go back." e4)
        else
          exec n .fireLoop e4
    -- handle_fan_obstacle (lines 257-294), up to its inner loop
    | .fanObstacle =>
      let e1 := print_lines_with_pause
        [ "The temperature rises the further you walk...",
          "A large fan blocks your path!",
          "Its blades spin dangerously fast." ] e
      exec n .fanLoop e1
    -- the while True loop of handle_fan_obstacle (lines 268-294)
    | .fanLoop =>
      let e1 := print_out "Do you want to:" e
      let e2 := print_out "1. Try to jump through the fan" e1
      let e3 := print_out "2. Go back" e2
      match get_valid_input "> " ["1", "2"] none e3.events e3.out with
      | none => .stuck
      | some (choice, evs, out) =>
        let e4 : Env := ⟨e3.gs, evs, out⟩
        if choice = "1" then
          let e5 := print_lines_with_pause
            [ "You take a deep breath and prepare to jump...",
              "This is going to be risky!" ] e4
          match e5.events with
          | Ev.coin b :: evs2 =>
            let e6 : Env := ⟨e5.gs, evs2, e5.out⟩
            if b then
              let e7 := print_lines_with_pause
                [ "Perfect timing! You pass through safely!",
                  "You've unlocked the 'Spinning Blades' ending!" ] e6
              exec n (.playAgain true) (type_text "Thanks for playing!" e7)
            else
              exec n (.playAgain false)
                (print_pause "The fan's blades were too fast..." e6)
          | _ => .stuck
        else if choice = "2" then
          let e5 := print_pause "You decide to go back to the main area." e4
          (exec n .mainLoop e5).andThen fun e6 => Res.ok e6
        else
          exec n .fanLoop e4
    -- enter_core_access (lines 297-316)
    | .coreAccess =>
      let e1 := print_pause "You enter the Core Access tunnel." e
      if e1.gs.has_fire_armor then
        exec n .fanObstacle (print_pause "You continue on your way." e1)
      else
        let e2 := print_pause "It's dark and quiet, but you spot a button..." e1
        match get_valid_input "Do you press the button? (Y/N): "
            ["y", "n"] none e2.events e2.out with
        | none => .stuck
        | some (c1, evs, out) =>
          let e3 : Env := ⟨e2.gs, evs, out⟩
          if c1 = "y" then exec n .randomEvent e3
          else exec n .fanObstacle
            (print_pause "You don't press the button and continue." e3)
    -- handle_random_event (lines 319-338): random.choice of
    -- ["explosion", "door_open"]; `pick2 true` draws "explosion"
    | .randomEvent =>
      match e.events with
      | Ev.pick2 b :: evs =>
        let e1 : Env := ⟨e.gs, evs, e.out⟩
        if b then
          let e2 := print_lines_with_pause
            [ "You feel the ground shaking heavily...",
              "What's that sound?",
              "..",
              "IT'S AN EXPLOSIO- 💥" ] e1
          exec n (.playAgain false) e2
        else
          let e2 := print_lines_with_pause
            [ "The button opens a hidden door in the wall...",
              "You step through and find a shining fire protection armor!" ] e1
          exec n .trivia e2
      | _ => .stuck
    -- return_to_core_access (lines 341-357)
    | .returnToCore =>
      match get_valid_input "Go to the firewall corridor? (Y/N): "
          ["y", "n"] none e.events e.out with
      | none => .stuck
      | some (c1, evs, out) =>
        let e1 : Env := ⟨e.gs, evs, out⟩
        if c1 = "y" then exec n .firewallPath e1
        else
          let e2 := print_lines_with_pause
            [ "You're back in the Core Access tunnel.",
              "You try to locate the button again...",
              "But it's vanished. You continue on." ] e1
          exec n .fanObstacle e2
    -- start_trivia_game (lines 360-413)
    | .trivia =>
      let e1 := print_pause "To claim it, pass a fun trivia question." e
      match e1.events with
      | Ev.pick3 i :: evs =>
        let q := questions.get i
        let e2 := print_pause q.question ⟨e1.gs, evs, e1.out⟩
        let e3 := print_out q.options e2
        match get_valid_input "> " ["a", "b", "c"] none e3.events e3.out with
        | none => .stuck
        | some (user_input, evs2, out2) =>
          let e4 : Env := ⟨e3.gs, evs2, out2⟩
          if user_input = q.answer then
            let e5 := print_lines_with_pause
              [ "Correct! You've earned the fire protection armor.",
                "Now revisit the firewall..." ] e4
            let gs1 := (e5.gs.modify_score 5).1
            let gs2 := { gs1 with has_fire_armor := true }
            exec n .returnToCore ⟨gs2, e5.events, e5.out⟩
          else
            let e5 := print_lines_with_pause
              [ "Incorrect! The armor stays locked.",
                "The floor splits open!" ] e4
            let gs1 := (e5.gs.modify_score (-5)).1
            exec n .returnToCore ⟨gs1, e5.events, e5.out⟩
      | _ => .stuck
    -- handle_play_again (lines 90-109)
    | .playAgain is_ending =>
      match get_valid_input (play_again_prompt is_ending)
          ["y", "n", ""] none e.events e.out with
      | none => .stuck
      | some (choice, evs, out) =>
        let e1 : Env := ⟨e.gs, evs, out⟩
        if choice ∈ (["y", ""] : List String) then
          exec n .resetGame e1
        else
          .exited 0 (type_text "Thanks for playing!" e1)
    -- reset_game (lines 112-121): fresh GameState, clear screen
    -- (cosmetic), intro, main loop
    | .resetGame =>
      let e1 : Env := ⟨GameState.init, e.events, e.out⟩
      (exec n .intro e1).andThen fun e2 => exec n .mainLoop e2

/-- The module entry point (lines 436-441): fresh state, intro, main loop. -/
def main_program (fuel : Nat) (events : List Ev) : Res :=
  (exec fuel .intro ⟨GameState.init, events, []⟩).andThen fun e =>
    exec fuel .mainLoop e

/-! ## Basic lemmas about the environment helpers and sequencing -/

@[simp]
theorem type_text_def (t : String) (e : Env) :
    type_text t e = ⟨e.gs, e.events, e.out ++ [t]⟩ := rfl

@[simp]
theorem print_pause_def (t : String) (e : Env) :
    print_pause t e = ⟨e.gs, e.events, e.out ++ [t]⟩ := rfl

@[simp]
theorem print_out_def (t : String) (e : Env) :
    print_out t e = ⟨e.gs, e.events, e.out ++ [t]⟩ := rfl

@[simp]
theorem print_lines_with_pause_def (lines : List String) (e : Env) :
    print_lines_with_pause lines e = ⟨e.gs, e.events, e.out ++ lines⟩ := by
  induction lines generalizing e with
  | nil => simp [print_lines_with_pause]
  | cons a t ih =>
    show print_lines_with_pause t (type_text a e) = _
    rw [ih]
    simp

@[simp]
theorem show_path_choices_def (e : Env) :
    show_path_choices e =
      ⟨e.gs, e.events,
        e.out ++
          [ "Ahead of you, there are two paths:",
            "1. A corridor with a red light labeled 'Firewall.'",
            "2. A pitch black tunnel labeled 'Core Access.'" ]⟩ := by
  simp [show_path_choices]

@[simp]
theorem ok_andThen (e : Env) (k : Env → Res) : (Res.ok e).andThen k = k e := rfl

@[simp]
theorem exited_andThen (c : Nat) (e : Env) (k : Env → Res) :
    (Res.exited c e).andThen k = Res.exited c e := rfl

@[simp]
theorem stuck_andThen (k : Env → Res) : Res.stuck.andThen k = Res.stuck := rfl

@[simp]
theorem andThen_ok_id (r : Res) : (r.andThen fun e => Res.ok e) = r := by
  cases r <;> rfl

theorem andThen_eq_ok {r : Res} {k : Env → Res} {e : Env}
    (h : r.andThen k = .ok e) : ∃ e', r = .ok e' ∧ k e' = .ok e := by
  cases r with
  | ok e' => exact ⟨e', rfl, h⟩
  | exited c e' => simp [Res.andThen] at h
  | stuck => simp [Res.andThen] at h

/-! ## Runs of the main loop, of reset and of the play-again prompt never
return normally: the loop only ends in `sys.exit` (or in exhaustion of the
model's fuel or events). These lemmas let later proofs discharge the dead
fall-through continuations of the source. -/

theorem exec_mainLoop_ne_ok : ∀ (n : Nat) (e r : Env), exec n .mainLoop e ≠ .ok r := by
  intro n
  induction n with
  | zero => intro e r h; simp [exec] at h
  | succ n ih =>
    intro e r h
    simp only [exec, show_path_choices_def] at h
    split at h
    · obtain ⟨e', _, h2⟩ := andThen_eq_ok h
      split at h2
      · simp at h2
      · obtain ⟨e4, _, h4⟩ := andThen_eq_ok h2
        exact ih e4 r h4
    · split at h
      · simp at h
      · obtain ⟨e4, _, h4⟩ := andThen_eq_ok h
        exact ih e4 r h4

theorem exec_resetGame_ne_ok : ∀ (n : Nat) (e r : Env), exec n .resetGame e ≠ .ok r := by
  intro n e r h
  cases n with
  | zero => simp [exec] at h
  | succ n =>
    simp only [exec] at h
    obtain ⟨e', _, h2⟩ := andThen_eq_ok h
    exact exec_mainLoop_ne_ok n _ r h2

theorem exec_playAgain_ne_ok :
    ∀ (n : Nat) (b : Bool) (e r : Env), exec n (.playAgain b) e ≠ .ok r := by
  intro n b e r h
  cases n with
  | zero => simp [exec] at h
  | succ n =>
    simp only [exec] at h
    split at h
    · simp at h
    · split at h
      · exact exec_resetGame_ne_ok n _ r h
      · simp at h

/-! ## Claim C7: the game-over predicate -/

/-- C7: `is_game_over` returns `true` exactly when the current score is at
most 0 — in particular `true` at score 0 and `false` at score 1, whatever
the item flag. In the embedding `is_game_over` is a plain function of the
state returning a `Bool`, so it has no side effect on the `GameState`,
matching the source method, which only reads `self.score`. -/
theorem c7_is_game_over_spec :
    (∀ gs : GameState, gs.is_game_over = true ↔ gs.score ≤ 0) ∧
    (∀ armor : Bool, (GameState.mk 0 armor).is_game_over = true) ∧
    (∀ armor : Bool, (GameState.mk 1 armor).is_game_over = false) := by
  refine ⟨fun gs => ?_, fun _ => rfl, fun _ => rfl⟩
  simp [GameState.is_game_over]

/-! ## Claim C6: the validated-input helper -/

theorem get_valid_input_mem :
    ∀ (evs : List Ev) (p : String) (v : List String) (err : Option String)
      (out : List String) (s : String) (evs' : List Ev) (out' : List String),
      get_valid_input p v err evs out = some (s, evs', out') → s ∈ v := by
  intro evs
  induction evs with
  | nil => intro p v err out s evs' out' h; simp [get_valid_input] at h
  | cons ev tl ih =>
    intro p v err out s evs' out' h
    cases ev with
    | line str =>
      by_cases hm : py_lower str ∈ v
      · simp only [get_valid_input, if_pos hm, Option.some.injEq, Prod.mk.injEq] at h
        obtain ⟨h1, -⟩ := h
        exact h1 ▸ hm
      · simp only [get_valid_input, if_neg hm] at h
        exact ih _ _ _ _ _ _ _ h
    | coin b => simp [get_valid_input] at h
    | pick2 b => simp [get_valid_input] at h
    | pick3 i => simp [get_valid_input] at h

/-- C6: `get_valid_input` returns only a lower-cased member of the valid
options (first conjunct); a line whose lower-casing is valid is accepted
immediately, returning that lower-cased value after displaying the prompt
(second conjunct); a line whose lower-casing is invalid makes it display
the prompt and the default error message — "Invalid choice. Choose: "
followed by the comma-joined options, when no custom message is supplied —
and re-prompt, i.e. recurse on the remaining input (third conjunct). The
helper never calls `sys.exit`: its result type has no exit outcome, it
only loops until a valid line arrives. -/
theorem c6_get_valid_input_spec :
    (∀ (p : String) (v : List String) (err : Option String) (evs : List Ev)
        (out : List String) (s : String) (evs' : List Ev) (out' : List String),
        get_valid_input p v err evs out = some (s, evs', out') → s ∈ v) ∧
    (∀ (p : String) (v : List String) (err : Option String) (raw : String)
        (evs : List Ev) (out : List String), py_lower raw ∈ v →
        get_valid_input p v err (Ev.line raw :: evs) out =
          some (py_lower raw, evs, out ++ [p])) ∧
    (∀ (p : String) (v : List String) (raw : String) (evs : List Ev)
        (out : List String), py_lower raw ∉ v →
        get_valid_input p v none (Ev.line raw :: evs) out =
          get_valid_input p v none evs (out ++ [p, default_error v])) := by
  refine ⟨fun p v err evs out s evs' out' h => get_valid_input_mem evs p v err out s evs' out' h,
    fun p v err raw evs out hm => ?_, fun p v raw evs out hm => ?_⟩
  · simp [get_valid_input, hm]
  · simp [get_valid_input, hm]

/-- Witness for C6 at concrete inputs: "x" is rejected (with the default
error message appended), then "Y" is lower-cased and accepted. -/
theorem c6_get_valid_input_spec_witness :
    ("y" ∈ (["y", "n"] : List String)) ∧
    (get_valid_input "? " ["y", "n"] none [Ev.line "Y"] [] = some ("y", [], ["? "])) ∧
    (get_valid_input "? " ["y", "n"] none [Ev.line "x", Ev.line "Y"] [] =
      get_valid_input "? " ["y", "n"] none [Ev.line "Y"] ["? ", default_error ["y", "n"]]) := by
  refine ⟨?_, ?_, ?_⟩
  · exact c6_get_valid_input_spec.1 "? " ["y", "n"] none [Ev.line "Y"] [] "y" [] ["? "] rfl
  · exact c6_get_valid_input_spec.2.1 "? " ["y", "n"] none "Y" [] [] (by decide)
  · exact c6_get_valid_input_spec.2.2 "? " ["y", "n"] "x" [Ev.line "Y"] [] (by decide)

/-! ## Claim C9: going back from the fan obstacle -/

/-- C9: choosing "2" (go back) at the fan obstacle hands control back to
the main path-choice loop with the `GameState` completely unchanged — the
same `gs` (score and item flag) flows into `main_game_loop`, and only
narration is emitted. Stated both from the start of `handle_fan_obstacle`
and from its inner choice loop. -/
theorem c9_fan_go_back_unchanged :
    ∀ (n : Nat) (gs : GameState) (evs : List Ev) (out : List String),
      (exec (n + 1 + 1) .fanObstacle ⟨gs, Ev.line "2" :: evs, out⟩ =
        exec n .mainLoop ⟨gs, evs,
          out ++
            [ "The temperature rises the further you walk...",
              "A large fan blocks your path!",
              "Its blades spin dangerously fast.",
              "Do you want to:", "1. Try to jump through the fan", "2. Go back",
              "> ", "You decide to go back to the main area." ]⟩) ∧
      (exec (n + 1) .fanLoop ⟨gs, Ev.line "2" :: evs, out⟩ =
        exec n .mainLoop ⟨gs, evs,
          out ++
            [ "Do you want to:", "1. Try to jump through the fan", "2. Go back",
              "> ", "You decide to go back to the main area." ]⟩) := by
  intro n gs evs out
  constructor
  · simp [exec, get_valid_input, py_lower]
  · simp [exec, get_valid_input, py_lower]

/-! ## Claim C8: declining the play-again prompt -/

/-- C8: at the play-again prompt, the validated answer "n" prints the
farewell and terminates the process with exit code 0, consuming no further
events (first conjunct); the other validated answers "y" and "" instead
hand over to `reset_game`, so the process does not terminate at this
prompt on them (second and third conjuncts). Together the three cover
every validated answer of the prompt. -/
theorem c8_play_again_decline_exits :
    ∀ (n : Nat) (b : Bool) (gs : GameState) (evs : List Ev) (out : List String),
      (exec (n + 1) (.playAgain b) ⟨gs, Ev.line "n" :: evs, out⟩ =
        .exited 0 ⟨gs, evs, out ++ [play_again_prompt b, "Thanks for playing!"]⟩) ∧
      (exec (n + 1) (.playAgain b) ⟨gs, Ev.line "y" :: evs, out⟩ =
        exec n .resetGame ⟨gs, evs, out ++ [play_again_prompt b]⟩) ∧
      (exec (n + 1) (.playAgain b) ⟨gs, Ev.line "" :: evs, out⟩ =
        exec n .resetGame ⟨gs, evs, out ++ [play_again_prompt b]⟩) := by
  intro n b gs evs out
  refine ⟨?_, ?_, ?_⟩
  · simp [exec, get_valid_input, py_lower]
  · simp [exec, get_valid_input, py_lower]
  · simp [exec, get_valid_input, py_lower]

/-! ## Claim C5: accepting the play-again prompt restarts fresh -/

/-- C5: accepting the play-again prompt with "y" (first conjunct) or with
a blank line (second conjunct) always restarts with the fresh state
`score = 10`, `hasSpecialItem = false` and re-runs the intro narration
before re-entering the main loop — for every prior state `gs`, and both
after a win (`b = true`) and after a loss (`b = false`). -/
theorem c5_restart_fresh_state :
    ∀ (n : Nat) (b : Bool) (gs : GameState) (evs : List Ev) (out : List String),
      (exec (n + 1 + 1 + 1) (.playAgain b) ⟨gs, Ev.line "y" :: evs, out⟩ =
        exec (n + 1) .mainLoop ⟨⟨10, false⟩, evs,
          out ++
            [ play_again_prompt b,
              "You wake up in a strange, dark place with tangled wires.",
              "As you wander a bit, you begin to realize you're inside a...",
              "Computer system." ]⟩) ∧
      (exec (n + 1 + 1 + 1) (.playAgain b) ⟨gs, Ev.line "" :: evs, out⟩ =
        exec (n + 1) .mainLoop ⟨⟨10, false⟩, evs,
          out ++
            [ play_again_prompt b,
              "You wake up in a strange, dark place with tangled wires.",
              "As you wander a bit, you begin to realize you're inside a...",
              "Computer system." ]⟩) := by
  intro n b gs evs out
  constructor
  · simp [exec, get_valid_input, py_lower, GameState.init]
  · simp [exec, get_valid_input, py_lower, GameState.init]

/-! ## Claim C4: the correct trivia answer -/

/-- C4: a correct trivia answer adds 5 to the score via `modify_score`,
sets the item flag to true, and hands over to `return_to_core_access` —
for each of the three pooled questions (first three conjuncts, for any
incoming state `gs`), and in particular for the "What does CPU stand for?"
question answered "a" from score 10, which yields score 15 and the item
flag set (last conjunct). -/
theorem c4_trivia_correct_reward :
    ∀ (n : Nat) (gs : GameState) (evs : List Ev) (out : List String),
      (exec (n + 1) .trivia ⟨gs, Ev.pick3 0 :: Ev.line "a" :: evs, out⟩ =
        exec n .returnToCore ⟨⟨gs.score + 5, true⟩, evs,
          out ++
            [ "To claim it, pass a fun trivia question.",
              "What does CPU stand for?",
              "A) Central Processing Unit  B) Computer Personal Unit  C) Central Peripheral Unit",
              "> ",
              "Correct! You've earned the fire protection armor.",
              "Now revisit the firewall..." ]⟩) ∧
      (exec (n + 1) .trivia ⟨gs, Ev.pick3 1 :: Ev.line "b" :: evs, out⟩ =
        exec n .returnToCore ⟨⟨gs.score + 5, true⟩, evs,
          out ++
            [ "To claim it, pass a fun trivia question.",
              "Which of these is an OS?",
              "A) Python  B) Linux  C) HTML",
              "> ",
              "Correct! You've earned the fire protection armor.",
              "Now revisit the firewall..." ]⟩) ∧
      (exec (n + 1) .trivia ⟨gs, Ev.pick3 2 :: Ev.line "a" :: evs, out⟩ =
        exec n .returnToCore ⟨⟨gs.score + 5, true⟩, evs,
          out ++
            [ "To claim it, pass a fun trivia question.",
              "What does RAM stand for?",
              "A) Random Access Memory  B) Readily Available Memory  C) Rapid Action Module",
              "> ",
              "Correct! You've earned the fire protection armor.",
              "Now revisit the firewall..." ]⟩) ∧
      (exec (n + 1) .trivia ⟨⟨10, false⟩, Ev.pick3 0 :: Ev.line "a" :: evs, out⟩ =
        exec n .returnToCore ⟨⟨15, true⟩, evs,
          out ++
            [ "To claim it, pass a fun trivia question.",
              "What does CPU stand for?",
              "A) Central Processing Unit  B) Computer Personal Unit  C) Central Peripheral Unit",
              "> ",
              "Correct! You've earned the fire protection armor.",
              "Now revisit the firewall..." ]⟩) := by
  intro n gs evs out
  refine ⟨?_, ?_, ?_, ?_⟩ <;>
    simp [exec, get_valid_input, py_lower, questions, GameState.modify_score]

/-! ## Claim C2: answering "b" in trivia -/

/-- C2 (amended): for a trivia encounter entered with score 10 and no
item, answering "b" is wrong for the CPU question (index 0) and the RAM
question (index 2) — the score becomes 5 and the item flag stays false —
but for the OS question (index 1) the stored answer is "b", so "b" is
correct there: the score becomes 15 and the item flag becomes true. The
outcome is not independent of which pooled question was drawn. -/
theorem c2_trivia_answer_b :
    ∀ (n : Nat) (evs : List Ev) (out : List String),
      (exec (n + 1) .trivia ⟨⟨10, false⟩, Ev.pick3 0 :: Ev.line "b" :: evs, out⟩ =
        exec n .returnToCore ⟨⟨5, false⟩, evs,
          out ++
            [ "To claim it, pass a fun trivia question.",
              "What does CPU stand for?",
              "A) Central Processing Unit  B) Computer Personal Unit  C) Central Peripheral Unit",
              "> ",
              "Incorrect! The armor stays locked.",
              "The floor splits open!" ]⟩) ∧
      (exec (n + 1) .trivia ⟨⟨10, false⟩, Ev.pick3 2 :: Ev.line "b" :: evs, out⟩ =
        exec n .returnToCore ⟨⟨5, false⟩, evs,
          out ++
            [ "To claim it, pass a fun trivia question.",
              "What does RAM stand for?",
              "A) Random Access Memory  B) Readily Available Memory  C) Rapid Action Module",
              "> ",
              "Incorrect! The armor stays locked.",
              "The floor splits open!" ]⟩) ∧
      (exec (n + 1) .trivia ⟨⟨10, false⟩, Ev.pick3 1 :: Ev.line "b" :: evs, out⟩ =
        exec n .returnToCore ⟨⟨15, true⟩, evs,
          out ++
            [ "To claim it, pass a fun trivia question.",
              "Which of these is an OS?",
              "A) Python  B) Linux  C) HTML",
              "> ",
              "Correct! You've earned the fire protection armor.",
              "Now revisit the firewall..." ]⟩) := by
  intro n evs out
  refine ⟨?_, ?_, ?_⟩ <;>
    simp [exec, get_valid_input, py_lower, questions, GameState.modify_score]

/-- Counterexample for C2 as stated: when the drawn question is the OS
question (index 1), answering "b" from score 10 does not leave the session
at score 5 without the item — the full run below (answer "b", then decline
the corridor, go back at the fan, pick the firewall with the newly won
armor, jump, auto-win, decline replay) terminates with score 15 and the
item flag true. -/
theorem c2_counterexample :
    (exec 20 .trivia ⟨⟨10, false⟩,
        [ Ev.pick3 1, Ev.line "b", Ev.line "n", Ev.line "2", Ev.line "1",
          Ev.line "JUMP", Ev.line "n" ], []⟩).finalState =
      some ⟨15, true⟩ := rfl

/-! ## Claim C1: the game-over check at the path choice -/

/-- C1 (amended): when the main loop is entered with a game-over state
(score at most 0), it still first displays the two-path choice text — the
check happens after `show_path_choices()` — and only then redirects to the
play-again prompt with `is_ending = false`, without reading any path
choice (the event list is passed on untouched). -/
theorem c1_pathchoice_gameover_redirect :
    ∀ (n : Nat) (gs : GameState) (evs : List Ev) (out : List String),
      gs.is_game_over = true →
      exec (n + 1) .mainLoop ⟨gs, evs, out⟩ =
        exec n (.playAgain false) ⟨gs, evs,
          out ++
            [ "Ahead of you, there are two paths:",
              "1. A corridor with a red light labeled 'Firewall.'",
              "2. A pitch black tunnel labeled 'Core Access.'" ]⟩ := by
  intro n gs evs out h
  simp only [exec, show_path_choices_def, h, if_true]
  cases hr : exec n (.playAgain false)
      ⟨gs, evs,
        out ++
          [ "Ahead of you, there are two paths:",
            "1. A corridor with a red light labeled 'Firewall.'",
            "2. A pitch black tunnel labeled 'Core Access.'" ]⟩ with
  | ok e' => exact absurd hr (exec_playAgain_ne_ok n false _ e')
  | exited c e' => simp [Res.andThen]
  | stuck => simp [Res.andThen]

/-- Witness for C1 (amended) at score 0 with a concrete declining run. -/
theorem c1_pathchoice_gameover_redirect_witness :
    ((⟨0, false⟩ : GameState).is_game_over = true) ∧
    exec 2 .mainLoop ⟨⟨0, false⟩, [Ev.line "n"], []⟩ =
      exec 1 (.playAgain false) ⟨⟨0, false⟩, [Ev.line "n"],
        [ "Ahead of you, there are two paths:",
          "1. A corridor with a red light labeled 'Firewall.'",
          "2. A pitch black tunnel labeled 'Core Access.'" ]⟩ :=
  ⟨rfl, c1_pathchoice_gameover_redirect 1 ⟨0, false⟩ [Ev.line "n"] [] rfl⟩

/-- Counterexample for C1 as stated: entering the path choice with score 0
does reach the play-again prompt, but only after the two-option choice
text has been displayed — the output log of this complete run shows the
three path-choice lines before the loss prompt, refuting "without first
showing the choice text". -/
theorem c1_counterexample :
    exec 2 .mainLoop ⟨⟨0, false⟩, [Ev.line "n"], []⟩ =
      .exited 0 ⟨⟨0, false⟩, [],
        [ "Ahead of you, there are two paths:",
          "1. A corridor with a red light labeled 'Firewall.'",
          "2. A pitch black tunnel labeled 'Core Access.'",
          "You lost, play again? (Y/N): ",
          "Thanks for playing!" ]⟩ := rfl

/-! ## Armor monotonicity within a session

A computation that returns normally (`Res.ok`) never passed through
`reset_game` (resets only happen inside the play-again prompt, whose runs
never return normally), so `ok`-runs are exactly the within-session
computations; over them the item flag never goes from true back to false. -/

theorem exec_ok_armor_mono :
    ∀ (n : Nat) (c : Call) (e r : Env), exec n c e = .ok r →
      e.gs.has_fire_armor = true → r.gs.has_fire_armor = true := by
  intro n
  induction n with
  | zero => intro c e r h ha; simp [exec] at h
  | succ n ih =>
    intro c e r h ha
    cases c with
    | intro =>
      simp only [exec, print_lines_with_pause_def] at h
      cases h
      simpa using ha
    | mainLoop => exact absurd h (exec_mainLoop_ne_ok _ _ _)
    | playAgain b => exact absurd h (exec_playAgain_ne_ok _ _ _ _)
    | resetGame => exact absurd h (exec_resetGame_ne_ok _ _ _)
    | firewallPath =>
      simp only [exec, ha, if_true, print_lines_with_pause_def] at h
      exact ih _ _ _ h ha
    | bridgeCrossing =>
      simp only [exec, print_lines_with_pause_def] at h
      exact ih _ _ _ h ha
    | jumpSeq k =>
      simp only [exec, type_text_def] at h
      split at h
      · split at h
        · exact ih _ _ _ h ha
        · exact absurd h (exec_playAgain_ne_ok _ _ _ _)
      · simp at h
    | firewallObstacle =>
      simp only [exec, ha, if_true, print_pause_def, print_lines_with_pause_def,
        type_text_def] at h
      exact absurd h (exec_playAgain_ne_ok _ _ _ _)
    | fireLoop =>
      simp only [exec, print_out_def, print_lines_with_pause_def, print_pause_def,
        type_text_def] at h
      split at h
      · simp at h
      · split at h
        · split at h
          · split at h
            · exact absurd h (exec_playAgain_ne_ok _ _ _ _)
            · exact absurd h (exec_playAgain_ne_ok _ _ _ _)
          · simp at h
        · split at h
          · cases h; simpa using ha
          · exact ih _ _ _ h ha
    | fanObstacle =>
      simp only [exec, print_lines_with_pause_def] at h
      exact ih _ _ _ h ha
    | fanLoop =>
      simp only [exec, print_out_def, print_lines_with_pause_def, print_pause_def,
        type_text_def] at h
      split at h
      · simp at h
      · split at h
        · split at h
          · split at h
            · exact absurd h (exec_playAgain_ne_ok _ _ _ _)
            · exact absurd h (exec_playAgain_ne_ok _ _ _ _)
          · simp at h
        · split at h
          · obtain ⟨e6, h6, hok⟩ := andThen_eq_ok h
            exact absurd h6 (exec_mainLoop_ne_ok _ _ _)
          · exact ih _ _ _ h ha
    | coreAccess =>
      simp only [exec, ha, if_true, print_pause_def] at h
      exact ih _ _ _ h ha
    | randomEvent =>
      simp only [exec, print_lines_with_pause_def] at h
      split at h
      · split at h
        · exact absurd h (exec_playAgain_ne_ok _ _ _ _)
        · exact ih _ _ _ h ha
      · simp at h
    | returnToCore =>
      simp only [exec, print_lines_with_pause_def] at h
      split at h
      · simp at h
      · split at h
        · exact ih _ _ _ h ha
        · exact ih _ _ _ h ha
    | trivia =>
      simp only [exec, print_pause_def, print_out_def, print_lines_with_pause_def,
        GameState.modify_score] at h
      split at h
      · split at h
        · simp at h
        · split at h
          · exact ih _ _ _ h rfl
          · exact ih _ _ _ h ha
      · simp at h

/-! ## The trivia answer step -/

theorem exec_trivia_step :
    ∀ (n : Nat) (gs : GameState) (evs : List Ev) (out : List String)
      (i : Fin 3) (a : String), a ∈ (["a", "b", "c"] : List String) →
      exec (n + 1) .trivia ⟨gs, Ev.pick3 i :: Ev.line a :: evs, out⟩ =
        exec n .returnToCore
          ⟨ if a = (questions.get i).answer then ⟨gs.score + 5, true⟩
              else ⟨gs.score + (-5), gs.has_fire_armor⟩,
            evs,
            out ++
              [ "To claim it, pass a fun trivia question.",
                (questions.get i).question, (questions.get i).options, "> " ] ++
              (if a = (questions.get i).answer then
                  [ "Correct! You've earned the fire protection armor.",
                    "Now revisit the firewall..." ]
                else
                  [ "Incorrect! The armor stays locked.",
                    "The floor splits open!" ]) ⟩ := by
  intro n gs evs out i a hmem
  simp only [List.mem_cons, List.not_mem_nil, or_false] at hmem
  rcases hmem with rfl | rfl | rfl <;> fin_cases i <;>
    simp [exec, get_valid_input, py_lower, questions, GameState.modify_score]

/-! ## Claim C3: lifecycle of the special item flag -/

/-- C3: within one session the item flag starts false (`__init__`,
first conjunct); `modify_score` never touches it (second conjunct); along
any normally-returning computation — i.e. any computation that stayed
inside one session, since runs through `reset_game` never return normally
(`exec_resetGame_ne_ok`) — the flag never reverts from true to false
(third conjunct); and the only write to the flag is the trivia answer
step, which sets it to true exactly on a correct answer and leaves it
untouched on a wrong one (fourth conjunct). Together: false initially,
set to true at most once, only by a correct trivia answer, never unset. -/
theorem c3_special_item_lifecycle :
    GameState.init.has_fire_armor = false ∧
    (∀ (gs : GameState) (amount : Int),
        ((gs.modify_score amount).1).has_fire_armor = gs.has_fire_armor) ∧
    (∀ (n : Nat) (c : Call) (e r : Env), exec n c e = .ok r →
        e.gs.has_fire_armor = true → r.gs.has_fire_armor = true) ∧
    (∀ (n : Nat) (gs : GameState) (evs : List Ev) (out : List String)
        (i : Fin 3) (a : String), a ∈ (["a", "b", "c"] : List String) →
        exec (n + 1) .trivia ⟨gs, Ev.pick3 i :: Ev.line a :: evs, out⟩ =
          exec n .returnToCore
            ⟨ if a = (questions.get i).answer then ⟨gs.score + 5, true⟩
                else ⟨gs.score + (-5), gs.has_fire_armor⟩,
              evs,
              out ++
                [ "To claim it, pass a fun trivia question.",
                  (questions.get i).question, (questions.get i).options, "> " ] ++
                (if a = (questions.get i).answer then
                    [ "Correct! You've earned the fire protection armor.",
                      "Now revisit the firewall..." ]
                  else
                    [ "Incorrect! The armor stays locked.",
                      "The floor splits open!" ]) ⟩) :=
  ⟨rfl, fun _ _ => rfl, exec_ok_armor_mono, exec_trivia_step⟩

/-- Witness for C3 at concrete inputs: a one-step `intro` run from a state
with the flag set keeps it set, and the trivia step at question 0 with the
wrong answer "b" from the fresh state leaves the flag false while
subtracting 5. -/
theorem c3_special_item_lifecycle_witness :
    (exec 1 .intro ⟨⟨7, true⟩, [], []⟩ =
      .ok ⟨⟨7, true⟩, [],
        [ "You wake up in a strange, dark place with tangled wires.",
          "As you wander a bit, you begin to realize you're inside a...",
          "Computer system." ]⟩) ∧
    ((⟨⟨7, true⟩, [], []⟩ : Env).gs.has_fire_armor = true) ∧
    ((⟨⟨7, true⟩, [],
        [ "You wake up in a strange, dark place with tangled wires.",
          "As you wander a bit, you begin to realize you're inside a...",
          "Computer system." ]⟩ : Env).gs.has_fire_armor = true) ∧
    ("b" ∈ (["a", "b", "c"] : List String)) ∧
    (exec 1 .trivia ⟨⟨10, false⟩, [Ev.pick3 0, Ev.line "b"], []⟩ =
      exec 0 .returnToCore
        ⟨⟨5, false⟩, [],
          [ "To claim it, pass a fun trivia question.",
            "What does CPU stand for?",
            "A) Central Processing Unit  B) Computer Personal Unit  C) Central Peripheral Unit",
            "> ",
            "Incorrect! The armor stays locked.",
            "The floor splits open!" ]⟩) :=
  ⟨rfl, rfl,
    c3_special_item_lifecycle.2.2.1 1 .intro ⟨⟨7, true⟩, [], []⟩ _ rfl rfl,
    by decide,
    c3_special_item_lifecycle.2.2.2 0 ⟨10, false⟩ [] [] 0 "b" (by decide)⟩

/-! ## The score invariant

Score mutations happen only in the trivia answer step, and the engine only
reaches the trivia scene through the main loop's game-over checkpoint, so
scores stay nonnegative multiples of 5. `needsPos` marks the calls that
the engine only ever makes with a strictly positive score (the core-access
chain leading to trivia, guarded by the main loop's check). -/

def needsPos : Call → Bool
  | .coreAccess => true
  | .randomEvent => true
  | .trivia => true
  | .jumpSeq k => needsPos k
  | _ => false

@[simp]
theorem finalState_ok (e : Env) : (Res.ok e).finalState = some e.gs := rfl

@[simp]
theorem finalState_exited (c : Nat) (e : Env) :
    (Res.exited c e).finalState = some e.gs := rfl

@[simp]
theorem finalState_stuck : Res.stuck.finalState = none := rfl

theorem finalState_andThen {r : Res} {k : Env → Res} {gs' : GameState}
    (h : (r.andThen k).finalState = some gs') :
    (∃ e', r = .ok e' ∧ (k e').finalState = some gs') ∨
      r.finalState = some gs' := by
  cases r with
  | ok e' => exact .inl ⟨e', rfl, h⟩
  | exited c e' => exact .inr h
  | stuck => simp [Res.andThen] at h

theorem exec_score_inv :
    ∀ (n : Nat) (c : Call) (e : Env) (gs' : GameState),
      (exec n c e).finalState = some gs' →
      0 ≤ e.gs.score → (5 : Int) ∣ e.gs.score →
      (needsPos c = true → 0 < e.gs.score) →
      0 ≤ gs'.score ∧ (5 : Int) ∣ gs'.score := by
  intro n
  induction n with
  | zero => intro c e gs' h _ _ _; simp [exec] at h
  | succ n ih =>
    intro c e gs' h h0 hd hpos
    cases c with
    | intro =>
      simp only [exec, print_lines_with_pause_def, finalState_ok] at h
      injection h with h
      subst h
      exact ⟨h0, hd⟩
    | mainLoop =>
      simp only [exec, show_path_choices_def] at h
      split at h
      · rcases finalState_andThen h with ⟨e', hok, -⟩ | hfin
        · exact absurd hok (exec_playAgain_ne_ok _ _ _ _)
        · exact ih _ _ _ hfin h0 hd (fun hh => absurd hh (by decide))
      · rename_i hnotover
        split at h
        · simp at h
        · have hp : 0 < e.gs.score := by
            simp [GameState.is_game_over] at hnotover
            omega
          rcases finalState_andThen h with ⟨e4, hb, hm⟩ | hfin
          · have hinv : 0 ≤ e4.gs.score ∧ (5 : Int) ∣ e4.gs.score := by
              split at hb
              · have hfb := congrArg Res.finalState hb
                rw [finalState_ok] at hfb
                exact ih _ _ _ hfb h0 hd (fun hh => absurd hh (by decide))
              · split at hb
                · have hfb := congrArg Res.finalState hb
                  rw [finalState_ok] at hfb
                  exact ih _ _ _ hfb h0 hd (fun _ => hp)
                · cases hb
                  exact ⟨h0, hd⟩
            exact ih _ _ _ hm hinv.1 hinv.2 (fun hh => absurd hh (by decide))
          · split at hfin
            · exact ih _ _ _ hfin h0 hd (fun hh => absurd hh (by decide))
            · split at hfin
              · exact ih _ _ _ hfin h0 hd (fun _ => hp)
              · simp only [finalState_ok] at hfin
                injection hfin with hfin
                subst hfin
                exact ⟨h0, hd⟩
    | firewallPath =>
      simp only [exec, print_lines_with_pause_def, print_pause_def] at h
      split at h
      · exact ih _ _ _ h h0 hd (fun hh => absurd hh (by decide))
      · split at h
        · simp at h
        · split at h
          · exact ih _ _ _ h h0 hd (fun hh => absurd hh (by decide))
          · simp only [print_pause_def, finalState_ok] at h
            injection h with h
            subst h
            exact ⟨h0, hd⟩
    | bridgeCrossing =>
      simp only [exec, print_lines_with_pause_def] at h
      exact ih _ _ _ h h0 hd (fun hh => absurd hh (by decide))
    | jumpSeq k =>
      simp only [exec, type_text_def] at h
      split at h
      · split at h
        · exact ih _ _ _ h h0 hd (fun hk => hpos (by simpa [needsPos] using hk))
        · exact ih _ _ _ h h0 hd (fun hh => absurd hh (by decide))
      · simp at h
    | firewallObstacle =>
      simp only [exec, print_pause_def, print_lines_with_pause_def,
        type_text_def] at h
      split at h
      · exact ih _ _ _ h h0 hd (fun hh => absurd hh (by decide))
      · exact ih _ _ _ h h0 hd (fun hh => absurd hh (by decide))
    | fireLoop =>
      simp only [exec, print_out_def, print_lines_with_pause_def,
        print_pause_def, type_text_def] at h
      split at h
      · simp at h
      · split at h
        · split at h
          · split at h
            · exact ih _ _ _ h h0 hd (fun hh => absurd hh (by decide))
            · exact ih _ _ _ h h0 hd (fun hh => absurd hh (by decide))
          · simp at h
        · split at h
          · simp only [finalState_ok] at h
            injection h with h
            subst h
            exact ⟨h0, hd⟩
          · exact ih _ _ _ h h0 hd (fun hh => absurd hh (by decide))
    | fanObstacle =>
      simp only [exec, print_lines_with_pause_def] at h
      exact ih _ _ _ h h0 hd (fun hh => absurd hh (by decide))
    | fanLoop =>
      simp only [exec, print_out_def, print_lines_with_pause_def,
        print_pause_def, type_text_def] at h
      split at h
      · simp at h
      · split at h
        · split at h
          · split at h
            · exact ih _ _ _ h h0 hd (fun hh => absurd hh (by decide))
            · exact ih _ _ _ h h0 hd (fun hh => absurd hh (by decide))
          · simp at h
        · split at h
          · rcases finalState_andThen h with ⟨e6, hok, hfin⟩ | hfin
            · simp only [finalState_ok] at hfin
              have hfb := congrArg Res.finalState hok
              rw [finalState_ok] at hfb
              have hinv := ih _ _ _ hfb h0 hd (fun hh => absurd hh (by decide))
              injection hfin with hfin
              subst hfin
              exact hinv
            · exact ih _ _ _ hfin h0 hd (fun hh => absurd hh (by decide))
          · exact ih _ _ _ h h0 hd (fun hh => absurd hh (by decide))
    | coreAccess =>
      have hp : 0 < e.gs.score := hpos rfl
      simp only [exec, print_pause_def] at h
      split at h
      · exact ih _ _ _ h h0 hd (fun hh => absurd hh (by decide))
      · split at h
        · simp at h
        · split at h
          · exact ih _ _ _ h h0 hd (fun _ => hp)
          · exact ih _ _ _ h h0 hd (fun hh => absurd hh (by decide))
    | randomEvent =>
      have hp : 0 < e.gs.score := hpos rfl
      simp only [exec, print_lines_with_pause_def] at h
      split at h
      · split at h
        · exact ih _ _ _ h h0 hd (fun hh => absurd hh (by decide))
        · exact ih _ _ _ h h0 hd (fun _ => hp)
      · simp at h
    | returnToCore =>
      simp only [exec, print_lines_with_pause_def] at h
      split at h
      · simp at h
      · split at h
        · exact ih _ _ _ h h0 hd (fun hh => absurd hh (by decide))
        · exact ih _ _ _ h h0 hd (fun hh => absurd hh (by decide))
    | trivia =>
      have hp : 0 < e.gs.score := hpos rfl
      obtain ⟨k, hk⟩ := hd
      simp only [exec, print_pause_def, print_out_def,
        print_lines_with_pause_def, GameState.modify_score] at h
      split at h
      · split at h
        · simp at h
        · split at h
          · exact ih _ _ _ h (by simp; omega) ⟨k + 1, by simp [hk]; ring⟩
              (fun hh => absurd hh (by decide))
          · exact ih _ _ _ h (by simp [hk] at hp ⊢; omega)
              ⟨k - 1, by simp [hk]; ring⟩ (fun hh => absurd hh (by decide))
      · simp at h
    | playAgain b =>
      simp only [exec, type_text_def] at h
      split at h
      · simp at h
      · split at h
        · exact ih _ _ _ h h0 hd (fun hh => absurd hh (by decide))
        · simp only [finalState_exited] at h
          injection h with h
          subst h
          exact ⟨h0, hd⟩
    | resetGame =>
      simp only [exec] at h
      rcases finalState_andThen h with ⟨e2, hok, hfin⟩ | hfin
      · have hfb := congrArg Res.finalState hok
        rw [finalState_ok] at hfb
        have hinv := ih _ _ _ hfb (by norm_num [GameState.init])
          (by norm_num [GameState.init]) (fun hh => absurd hh (by decide))
        exact ih _ _ _ hfin hinv.1 hinv.2 (fun hh => absurd hh (by decide))
      · exact ih _ _ _ hfin (by norm_num [GameState.init])
          (by norm_num [GameState.init]) (fun hh => absurd hh (by decide))

/-! ## Claim C10: re-offering the button and repeated trivia -/

/-- Canonical repeated-wrong-answer session, started at the program entry
point: choose Core Access, press the button, door opens, answer the CPU
question wrong (10 → 5); go back past the fan to the path choice; repeat
the same round (5 → 0); back at the path choice the game-over check now
fires and the loss prompt is declined. -/
def c10_events : List Ev :=
  [ Ev.line "2", Ev.line "y", Ev.pick2 false, Ev.pick3 0, Ev.line "b",
    Ev.line "n", Ev.line "2",
    Ev.line "2", Ev.line "y", Ev.pick2 false, Ev.pick3 0, Ev.line "b",
    Ev.line "n", Ev.line "2",
    Ev.line "n" ]

/-- C10 (amended): entering Core Access without the item always presents
the button offer again — whatever the score and regardless of any earlier
trivia attempt, since the scene depends only on the state (first
conjunct); each wrong trivia answer subtracts 5 more, at any score
(second conjunct, for the CPU question); so trivia can indeed run several
times per session — the concrete session `c10_events` plays two full
wrong-answer trivia rounds, 10 → 5 → 0 (third conjunct, consuming both
`pick3` draws). However, the score cannot fall arbitrarily far below
zero: every path back into trivia passes the main loop's game-over
check, and in fact every completed run from a state with a nonnegative
score divisible by 5 — such as the fresh start at 10 — ends with a
nonnegative score divisible by 5 (fourth conjunct); in the concrete
session the check fires at exactly 0 and the process exits there. -/
theorem c10_core_access_replay :
    (∀ (n : Nat) (s : Int) (evs : List Ev) (out : List String),
        exec (n + 1) .coreAccess ⟨⟨s, false⟩, Ev.line "y" :: evs, out⟩ =
          exec n .randomEvent ⟨⟨s, false⟩, evs,
            out ++
              [ "You enter the Core Access tunnel.",
                "It's dark and quiet, but you spot a button...",
                "Do you press the button? (Y/N): " ]⟩) ∧
    (∀ (n : Nat) (gs : GameState) (evs : List Ev) (out : List String),
        exec (n + 1) .trivia ⟨gs, Ev.pick3 0 :: Ev.line "b" :: evs, out⟩ =
          exec n .returnToCore ⟨⟨gs.score + (-5), gs.has_fire_armor⟩, evs,
            out ++
              [ "To claim it, pass a fun trivia question.",
                "What does CPU stand for?",
                "A) Central Processing Unit  B) Computer Personal Unit  C) Central Peripheral Unit",
                "> ",
                "Incorrect! The armor stays locked.",
                "The floor splits open!" ]⟩) ∧
    ((main_program 40 c10_events).finalState = some ⟨0, false⟩ ∧
      (main_program 40 c10_events).remainingEvents = some ([] : List Ev)) ∧
    (∀ (n : Nat) (c : Call) (e : Env) (gs' : GameState),
        (exec n c e).finalState = some gs' →
        0 ≤ e.gs.score → (5 : Int) ∣ e.gs.score →
        (needsPos c = true → 0 < e.gs.score) →
        0 ≤ gs'.score ∧ (5 : Int) ∣ gs'.score) := by
  refine ⟨fun n s evs out => ?_, fun n gs evs out => ?_, ⟨rfl, rfl⟩,
    exec_score_inv⟩
  · simp [exec, get_valid_input, py_lower]
  · simp [exec, get_valid_input, py_lower, questions, GameState.modify_score]

/-- Witness for C10 at a concrete run: declining the prompt after a win
from score 15 exits with score 15, which is nonnegative and divisible
by 5. -/
theorem c10_core_access_replay_witness :
    ((exec 2 (.playAgain true) ⟨⟨15, true⟩, [Ev.line "n"], []⟩).finalState =
      some ⟨15, true⟩) ∧
    ((0 : Int) ≤ 15) ∧ ((5 : Int) ∣ 15) ∧
    ((0 : Int) ≤ 15 ∧ (5 : Int) ∣ 15) :=
  ⟨rfl, by norm_num, by norm_num,
    c10_core_access_replay.2.2.2 2 (.playAgain true)
      ⟨⟨15, true⟩, [Ev.line "n"], []⟩ ⟨15, true⟩ rfl (by norm_num)
      (by norm_num) (fun hh => absurd hh (by decide))⟩

/-- Counterexample for C10's final clause as stated: in the very session
the claim describes — repeated wrong trivia answers, `c10_events` — the
score does not fall below zero before the next PathChoice game-over
check: the run consumes both wrong-answer rounds (all events used), the
check fires at exactly score 0, and the process exits there with code 0. -/
theorem c10_counterexample :
    (main_program 40 c10_events).finalState = some ⟨0, false⟩ ∧
    (main_program 40 c10_events).exitCode = some 0 ∧
    (main_program 40 c10_events).remainingEvents = some ([] : List Ev) :=
  ⟨rfl, rfl, rfl⟩
